import Mathlib

/-!
# Verification of the `ntb_location` service core

Shallow embedding of `src/main.rs`: the label sanitiser, the optional-field
coercion used by the query deserializer, and the two HTTP handlers
(`post_location`, `get_all_locations`) together with the store semantics they
rely on.  Rust `f64` coordinates are modelled as `ℚ` (no arithmetic is ever
performed on them — they are only carried through), `i64` ids as `Int`, and
`chrono::NaiveDateTime` as a six-field calendar record ordered
chronologically.
-/

namespace NtbLocation

/-- Character class of the sanitisation regex `^[a-zA-Z0-9_ ]+$`
(`SANITISATION_REGEX` in `main.rs`): ASCII lower/upper letters, ASCII digits,
underscore and space. -/
def allowedByRegex (c : Char) : Bool :=
  ('a' ≤ c && c ≤ 'z') || ('A' ≤ c && c ≤ 'Z') || ('0' ≤ c && c ≤ '9')
    || c = '_' || c = ' '

/-- `fn sanitise_string(s: &str) -> bool`: `SANITISATION_REGEX.is_match(s)`.
The pattern is anchored at both ends with a one-or-more repetition, and the
Rust `regex` crate's `$` matches only the very end of the haystack, so the
match succeeds exactly when the string is non-empty and every character is in
the class. -/
def sanitise_string (s : String) : Bool :=
  !s.data.isEmpty && s.data.all allowedByRegex

/-- Model of `chrono::NaiveDateTime` (store-assigned `created_at`,
client-supplied `from`/`to` bounds). -/
structure NaiveDateTime where
  year : Nat
  month : Nat
  day : Nat
  hour : Nat
  minute : Nat
  second : Nat
deriving DecidableEq, Repr

/-- Flattening key: fields are mixed-radix digits (each calendar field of an
in-range timestamp is `< 100`), so `≤` on keys is the chronological
(lexicographic) order on timestamps. -/
def NaiveDateTime.key (t : NaiveDateTime) : Nat :=
  ((((t.year * 100 + t.month) * 100 + t.day) * 100 + t.hour) * 100
      + t.minute) * 100 + t.second

/-- Chronological order on timestamps, as the store's `<=` on `created_at`. -/
def NaiveDateTime.le (a b : NaiveDateTime) : Bool :=
  a.key ≤ b.key

/-- In-range calendar values, as `chrono` guarantees for any constructed
`NaiveDateTime` (four-digit year, two-digit remaining fields). -/
def NaiveDateTime.Valid (t : NaiveDateTime) : Prop :=
  t.year ≤ 9999 ∧ 1 ≤ t.month ∧ t.month ≤ 12 ∧ 1 ≤ t.day ∧ t.day ≤ 31
    ∧ t.hour ≤ 23 ∧ t.minute ≤ 59 ∧ t.second ≤ 59

/-- `struct DbLocData`: a row of the `locations` table. -/
structure DbLocData where
  id : Int
  source : String
  latitude : ℚ
  longitude : ℚ
  created_at : NaiveDateTime
deriving DecidableEq, Repr

/-- `struct PostLocData`: body of `POST /`. -/
structure PostLocData where
  source : String
  latitude : ℚ
  longitude : ℚ
deriving DecidableEq, Repr

/-- `struct GetLocQuery`: the three optional query parameters of `GET /`.
(`from` is a Lean keyword, hence the trailing underscores.) -/
structure GetLocQuery where
  source : Option String
  from_ : Option NaiveDateTime
  to_ : Option NaiveDateTime
deriving DecidableEq, Repr

/-- `fn empty_string_as_none`: deserialize an optional raw field; an absent
field or an empty string become `None`, any other string is handed to the
target type's `FromStr` parser, whose error (if any) fails the whole
deserialization. The parser for the target type `T` is passed explicitly. -/
def empty_string_as_none {T : Type} (parse : String → Except String T) :
    Option String → Except String (Option T)
  | none => .ok none
  | some "" => .ok none
  | some s => (parse s).map some

/-- The `FromStr` parser for `String` itself (the `source` field): total. -/
def parseSource (s : String) : Except String String :=
  .ok s

/-- Character of a single decimal digit. -/
def digCh (n : Nat) : Char :=
  match n with
  | 0 => '0' | 1 => '1' | 2 => '2' | 3 => '3' | 4 => '4'
  | 5 => '5' | 6 => '6' | 7 => '7' | 8 => '8' | _ => '9'

/-- Numeric value of a decimal digit character. -/
def digVal (c : Char) : Nat :=
  c.toNat - 48

/-- Decimal digit test. -/
def isDig (c : Char) : Bool :=
  '0' ≤ c && c ≤ '9'

/-- Two-digit zero-padded decimal encoding (calendar fields are `< 100`). -/
def pad2 (n : Nat) : List Char :=
  [digCh (n / 10), digCh (n % 10)]

/-- Four-digit zero-padded decimal encoding (years are `< 10000`). -/
def pad4 (n : Nat) : List Char :=
  [digCh (n / 1000), digCh (n / 100 % 10), digCh (n / 10 % 10), digCh (n % 10)]

/-- Modelled from the spec: the textual timestamp encoding lives outside
`src/` (in `chrono`'s formatter and the store's column representation); the
spec fixes one unambiguous representation, its example being
`YYYY-MM-DD HH:MM:SS`, used consistently for stored `created_at` values and
for the `from`/`to` bounds. -/
def encodeTimestamp (t : NaiveDateTime) : String :=
  ⟨pad4 t.year ++ '-' :: pad2 t.month ++ '-' :: pad2 t.day
    ++ ' ' :: pad2 t.hour ++ ':' :: pad2 t.minute ++ ':' :: pad2 t.second⟩

/-- Modelled from the spec: the `FromStr` parse of a timestamp bound lives
outside `src/` (in `chrono`); it accepts exactly the fixed textual
representation produced by `encodeTimestamp`. -/
def parseTimestamp (s : String) : Option NaiveDateTime :=
  match s.data with
  | [y1, y2, y3, y4, a, m1, m2, b, d1, d2, c, h1, h2, d, n1, n2, e, s1, s2] =>
    if a = '-' && b = '-' && c = ' ' && d = ':' && e = ':'
        && [y1, y2, y3, y4, m1, m2, d1, d2, h1, h2, n1, n2, s1, s2].all isDig
    then
      some ⟨digVal y1 * 1000 + digVal y2 * 100 + digVal y3 * 10 + digVal y4,
            digVal m1 * 10 + digVal m2,
            digVal d1 * 10 + digVal d2,
            digVal h1 * 10 + digVal h2,
            digVal n1 * 10 + digVal n2,
            digVal s1 * 10 + digVal s2⟩
    else none
  | _ => none

/-- `parseTimestamp` as the `FromStr` parser used by `empty_string_as_none`
for the `from`/`to` fields, with the parse failure reason as the error. -/
def parseTimestampE (s : String) : Except String NaiveDateTime :=
  match parseTimestamp s with
  | some t => .ok t
  | none => .error ("invalid timestamp: " ++ s)

/-- Deserialization of `GetLocQuery`: serde applies the one generic
`empty_string_as_none` deserializer to each of the three optional fields
(`#[serde(default, deserialize_with = "empty_string_as_none")]`), failing the
whole request on the first field whose non-empty value does not parse. -/
def parseGetLocQuery (rawSource rawFrom rawTo : Option String) :
    Except String GetLocQuery := do
  let s ← empty_string_as_none parseSource rawSource
  let f ← empty_string_as_none parseTimestampE rawFrom
  let t ← empty_string_as_none parseTimestampE rawTo
  return { source := s, from_ := f, to_ := t }

/-- HTTP response body: plain text or the JSON array of rows. -/
inductive Body where
  | text (s : String)
  | json (rows : List DbLocData)
deriving DecidableEq, Repr

/-- HTTP response: status code and body. -/
structure HttpResponse where
  status : Nat
  body : Body
deriving DecidableEq, Repr

/-- One `tracing` log line emitted by a handler. -/
inductive LogEntry where
  | requestPost (data : PostLocData)
  | requestGet (q : GetLocQuery)
  | recordAdded (row : DbLocData)
  | cannotAdd (cause : String)
  | recordsFetched (n : Nat) (q : GetLocQuery)
  | cannotFetch (cause : String)
deriving DecidableEq, Repr

/-- Outcome of one handler call: the HTTP response, the store contents after
the call, and the log lines emitted. -/
structure HandlerResult where
  response : HttpResponse
  store : List DbLocData
  log : List LogEntry
deriving DecidableEq, Repr

/-- Modelled from the spec: the store (an external collaborator, spec 4.5)
executes `INSERT INTO locations (source, latitude, longitude) VALUES (?, ?, ?)
RETURNING *` by assigning the fresh `id` and the insertion-time `created_at`
itself, appending the row, and returning the fully materialized row. The
store-chosen `id`/`created_at` are parameters of the model. -/
def storeInsert (store : List DbLocData) (d : PostLocData) (newId : Int)
    (now : NaiveDateTime) : DbLocData × List DbLocData :=
  let row : DbLocData :=
    { id := newId, source := d.source, latitude := d.latitude,
      longitude := d.longitude, created_at := now }
  (row, store ++ [row])

/-- The `WHERE` clause of the `SELECT` in `get_all_locations`:
`(?1 IS NULL OR source = ?1) AND (?2 IS NULL OR created_at >= ?2)
AND (?3 IS NULL OR created_at <= ?3)` with `?1, ?2, ?3` bound to
`query.source, query.from, query.to`. -/
def matchesFilter (q : GetLocQuery) (r : DbLocData) : Bool :=
  (match q.source with | none => true | some s => r.source == s)
    && (match q.from_ with | none => true | some t => NaiveDateTime.le t r.created_at)
    && (match q.to_ with | none => true | some t => NaiveDateTime.le r.created_at t)

/-- `async fn post_location`: validate the source, then issue the single
insert. The store's behaviour is a parameter: `.ok (newId, now)` means the
insert commits with that store-assigned id and timestamp, `.error cause`
means the store call fails with that cause. -/
def post_location (store : List DbLocData) (data : PostLocData)
    (outcome : Except String (Int × NaiveDateTime)) : HandlerResult :=
  if !sanitise_string data.source then
    { response := { status := 400, body := .text "Invalid source" },
      store := store,
      log := [.requestPost data] }
  else
    match outcome with
    | .ok (newId, now) =>
      let inserted := storeInsert store data newId now
      { response := { status := 200, body := .text "Record added" },
        store := inserted.2,
        log := [.requestPost data, .recordAdded inserted.1] }
    | .error cause =>
      { response := { status := 500, body := .text "No record added" },
        store := store,
        log := [.requestPost data, .cannotAdd cause] }

/-- `async fn get_all_locations`: validate a present source, then run the
filtered scan. The store's behaviour is a parameter: `.ok ()` means the scan
succeeds (returning exactly the rows matching the `WHERE` clause, in store
order), `.error cause` means the store call fails with that cause. -/
def get_all_locations (store : List DbLocData) (q : GetLocQuery)
    (scan : Except String Unit) : HandlerResult :=
  if q.source.any (fun s => !sanitise_string s) then
    { response := { status := 400, body := .text "Invalid source" },
      store := store,
      log := [.requestGet q] }
  else
    match scan with
    | .ok _ =>
      let rows := store.filter (matchesFilter q)
      { response := { status := 200, body := .json rows },
        store := store,
        log := [.requestGet q, .recordsFetched rows.length q] }
    | .error cause =>
      { response := { status := 500, body := .text "No records fetched" },
        store := store,
        log := [.requestGet q, .cannotFetch cause] }

/-! ## Helper lemmas -/

/-- The regex character class coincides with ASCII alphanumerics plus
underscore and space. -/
theorem allowedByRegex_iff (c : Char) : allowedByRegex c = true ↔
    (c.isAlpha = true ∨ c.isDigit = true ∨ c = '_' ∨ c = ' ') := by
  simp only [allowedByRegex, Char.isAlpha, Char.isUpper, Char.isLower, Char.isDigit,
    Bool.or_eq_true, Bool.and_eq_true, decide_eq_true_eq, Char.le_def, ge_iff_le,
    show 'a'.val = 97 from rfl, show 'z'.val = 122 from rfl,
    show 'A'.val = 65 from rfl, show 'Z'.val = 90 from rfl,
    show '0'.val = 48 from rfl, show '9'.val = 57 from rfl]
  tauto

/-- When a present `source` passes the sanitiser, the rejection guard of
`get_all_locations` is off. -/
theorem sourceOk_any (q : GetLocQuery)
    (hs : ∀ s, q.source = some s → sanitise_string s = true) :
    q.source.any (fun s => !sanitise_string s) = false := by
  cases hq : q.source with
  | none => rfl
  | some s => simp [Option.any, hs s hq]

/-- The `WHERE` clause holds iff every present predicate holds. -/
theorem matchesFilter_iff (q : GetLocQuery) (r : DbLocData) :
    matchesFilter q r = true ↔
      ((∀ s, q.source = some s → r.source = s)
        ∧ (∀ t, q.from_ = some t → NaiveDateTime.le t r.created_at = true)
        ∧ (∀ t, q.to_ = some t → NaiveDateTime.le r.created_at t = true)) := by
  rw [matchesFilter]
  cases q.source <;> cases q.from_ <;> cases q.to_ <;> simp [and_assoc]

/-- Chronological order is transitive. -/
theorem NaiveDateTime.le_trans (a b c : NaiveDateTime)
    (h1 : a.le b = true) (h2 : b.le c = true) : a.le c = true := by
  simp only [NaiveDateTime.le, decide_eq_true_eq] at *
  omega

/-- `digVal` inverts `digCh` on single digits. -/
theorem digVal_digCh {n : Nat} (h : n < 10) : digVal (digCh n) = n := by
  interval_cases n <;> decide

/-- `digCh` produces digit characters. -/
theorem isDig_digCh {n : Nat} (h : n < 10) : isDig (digCh n) = true := by
  interval_cases n <;> decide

/-- Parsing inverts encoding on in-range timestamps. -/
theorem parse_encodeTimestamp (t : NaiveDateTime) (hv : t.Valid) :
    parseTimestamp (encodeTimestamp t) = some t := by
  obtain ⟨y, mo, d, h, mi, s⟩ := t
  simp only [NaiveDateTime.Valid] at hv
  obtain ⟨hy, hmo1, hmo2, hd1, hd2, hh, hmi, hs⟩ := hv
  have e1 : y / 1000 < 10 := by omega
  have e2 : y / 100 % 10 < 10 := Nat.mod_lt _ (by norm_num)
  have e3 : y / 10 % 10 < 10 := Nat.mod_lt _ (by norm_num)
  have e4 : y % 10 < 10 := Nat.mod_lt _ (by norm_num)
  have f1 : mo / 10 < 10 := by omega
  have f2 : mo % 10 < 10 := Nat.mod_lt _ (by norm_num)
  have g1 : d / 10 < 10 := by omega
  have g2 : d % 10 < 10 := Nat.mod_lt _ (by norm_num)
  have i1 : h / 10 < 10 := by omega
  have i2 : h % 10 < 10 := Nat.mod_lt _ (by norm_num)
  have j1 : mi / 10 < 10 := by omega
  have j2 : mi % 10 < 10 := Nat.mod_lt _ (by norm_num)
  have k1 : s / 10 < 10 := by omega
  have k2 : s % 10 < 10 := Nat.mod_lt _ (by norm_num)
  simp only [encodeTimestamp, pad4, pad2, List.cons_append, List.nil_append]
  rw [parseTimestamp]
  simp only [List.all_cons, List.all_nil, Bool.and_true,
    isDig_digCh e1, isDig_digCh e2, isDig_digCh e3, isDig_digCh e4,
    isDig_digCh f1, isDig_digCh f2, isDig_digCh g1, isDig_digCh g2,
    isDig_digCh i1, isDig_digCh i2, isDig_digCh j1, isDig_digCh j2,
    isDig_digCh k1, isDig_digCh k2]
  norm_num
  simp only [digVal_digCh e1, digVal_digCh e2, digVal_digCh e3, digVal_digCh e4,
    digVal_digCh f1, digVal_digCh f2, digVal_digCh g1, digVal_digCh g2,
    digVal_digCh i1, digVal_digCh i2, digVal_digCh j1, digVal_digCh j2,
    digVal_digCh k1, digVal_digCh k2, NaiveDateTime.mk.injEq]
  omega

/-! ## Claims -/

/-- C1: `sanitise_string` returns true iff the string is non-empty and every
character is an ASCII letter, ASCII digit, underscore or space; it returns
false for the empty string and for any string with another character
(punctuation, non-ASCII, control characters, including newline). -/
theorem sanitise_string_valid_label_iff :
    (∀ s : String, sanitise_string s = true ↔
      (s ≠ "" ∧ ∀ c ∈ s.data, (c.isAlpha = true ∨ c.isDigit = true ∨ c = '_' ∨ c = ' ')))
    ∧ sanitise_string "" = false
    ∧ sanitise_string "hello World_1 x" = true
    ∧ sanitise_string "bad!source" = false
    ∧ sanitise_string "line1\nline2" = false
    ∧ sanitise_string "café" = false := by
  refine ⟨fun s => ?_, by decide, by decide, by decide, by decide, by decide⟩
  have hne : (!s.data.isEmpty) = true ↔ s ≠ "" := by
    cases s with
    | mk l => simp [String.ext_iff]
  rw [sanitise_string, Bool.and_eq_true, List.all_eq_true]
  constructor
  · rintro ⟨h1, h2⟩
    exact ⟨hne.1 h1, fun c hc => (allowedByRegex_iff c).1 (h2 c hc)⟩
  · rintro ⟨h1, h2⟩
    exact ⟨hne.2 h1, fun c hc => (allowedByRegex_iff c).2 (h2 c hc)⟩

/-- C2: on a successful scan, `get_all_locations` answers 200 with exactly the
stored records satisfying every present predicate — source exact match,
`from` an inclusive lower and `to` an inclusive upper bound on `created_at`,
absent predicates always true, combined conjunctively. -/
theorem get_all_locations_returns_exactly_matching (store : List DbLocData)
    (q : GetLocQuery)
    (hs : ∀ s, q.source = some s → sanitise_string s = true) :
    ∃ rows, get_all_locations store q (.ok ()) =
        { response := { status := 200, body := .json rows }, store := store,
          log := [.requestGet q, .recordsFetched rows.length q] }
      ∧ ∀ r : DbLocData, r ∈ rows ↔
          (r ∈ store
            ∧ (∀ s, q.source = some s → r.source = s)
            ∧ (∀ t, q.from_ = some t → NaiveDateTime.le t r.created_at = true)
            ∧ (∀ t, q.to_ = some t → NaiveDateTime.le r.created_at t = true)) := by
  refine ⟨store.filter (matchesFilter q), ?_, ?_⟩
  · rw [get_all_locations, sourceOk_any q hs]
    rfl
  · intro r
    rw [List.mem_filter, matchesFilter_iff]

/-- Witness for C2: a two-row mixed-source store queried by `source = "gps"`. -/
theorem get_all_locations_returns_exactly_matching_witness :
    ∃ rows, get_all_locations
        [{ id := 1, source := "gps", latitude := 1, longitude := 2,
           created_at := ⟨2024, 1, 2, 3, 4, 5⟩ },
         { id := 2, source := "phone", latitude := 3, longitude := 4,
           created_at := ⟨2024, 1, 3, 0, 0, 0⟩ }]
        ⟨some "gps", none, none⟩ (.ok ()) =
        { response := { status := 200, body := .json rows },
          store := [{ id := 1, source := "gps", latitude := 1, longitude := 2,
                      created_at := ⟨2024, 1, 2, 3, 4, 5⟩ },
                    { id := 2, source := "phone", latitude := 3, longitude := 4,
                      created_at := ⟨2024, 1, 3, 0, 0, 0⟩ }],
          log := [.requestGet ⟨some "gps", none, none⟩,
                  .recordsFetched rows.length ⟨some "gps", none, none⟩] }
      ∧ ∀ r : DbLocData, r ∈ rows ↔
          (r ∈ [{ id := 1, source := "gps", latitude := 1, longitude := 2,
                  created_at := ⟨2024, 1, 2, 3, 4, 5⟩ },
                { id := 2, source := "phone", latitude := 3, longitude := 4,
                  created_at := ⟨2024, 1, 3, 0, 0, 0⟩ }]
            ∧ (∀ s, (⟨some "gps", none, none⟩ : GetLocQuery).source = some s → r.source = s)
            ∧ (∀ t, (⟨some "gps", none, none⟩ : GetLocQuery).from_ = some t →
                  NaiveDateTime.le t r.created_at = true)
            ∧ (∀ t, (⟨some "gps", none, none⟩ : GetLocQuery).to_ = some t →
                  NaiveDateTime.le r.created_at t = true)) :=
  get_all_locations_returns_exactly_matching _ _ (fun s h => by cases h; decide)

/-- C3: `empty_string_as_none` maps an absent field and an empty-string field
to `none` (not an error, not a zero value), parses any non-empty string with
the target type's parser — succeeding with `some` of the value or failing
with the parse error — and is the one generic function serde applies
uniformly to all three optional fields of `GetLocQuery`. -/
theorem empty_string_as_none_coercion :
    (∀ (T : Type) (parse : String → Except String T),
        empty_string_as_none parse none = .ok none)
    ∧ (∀ (T : Type) (parse : String → Except String T),
        empty_string_as_none parse (some "") = .ok none)
    ∧ (∀ (T : Type) (parse : String → Except String T) (s : String) (v : T),
        s ≠ "" → parse s = .ok v →
          empty_string_as_none parse (some s) = .ok (some v))
    ∧ (∀ (T : Type) (parse : String → Except String T) (s e : String),
        s ≠ "" → parse s = .error e →
          empty_string_as_none parse (some s) = .error e)
    ∧ (∀ rawSource rawFrom rawTo : Option String,
        parseGetLocQuery rawSource rawFrom rawTo =
          (empty_string_as_none parseSource rawSource).bind fun s =>
            (empty_string_as_none parseTimestampE rawFrom).bind fun f =>
              (empty_string_as_none parseTimestampE rawTo).map fun t =>
                { source := s, from_ := f, to_ := t }) := by
  refine ⟨fun T parse => rfl, fun T parse => rfl, ?_, ?_, ?_⟩
  · intro T parse s v hs hp
    rw [empty_string_as_none.eq_def]
    split
    all_goals simp_all [Except.map]
  · intro T parse s e hs hp
    rw [empty_string_as_none.eq_def]
    split
    all_goals simp_all [Except.map]
  · intro rawSource rawFrom rawTo
    rw [parseGetLocQuery]
    cases empty_string_as_none parseSource rawSource <;>
      cases empty_string_as_none parseTimestampE rawFrom <;>
        cases empty_string_as_none parseTimestampE rawTo <;> rfl

/-- Witness for C3: a parsable and an unparsable non-empty timestamp field. -/
theorem empty_string_as_none_coercion_witness :
    empty_string_as_none parseTimestampE (some "2024-01-02 03:04:05")
        = .ok (some ⟨2024, 1, 2, 3, 4, 5⟩)
    ∧ empty_string_as_none parseTimestampE (some "not a time")
        = .error "invalid timestamp: not a time" :=
  ⟨empty_string_as_none_coercion.2.2.1 NaiveDateTime parseTimestampE
      "2024-01-02 03:04:05" ⟨2024, 1, 2, 3, 4, 5⟩ (by decide) rfl,
   empty_string_as_none_coercion.2.2.2.1 NaiveDateTime parseTimestampE
      "not a time" "invalid timestamp: not a time" (by decide) rfl⟩

/-- C4: an input whose source fails validation makes both handlers answer 400
with the fixed message, whatever the store would have done; the store is
untouched, so an unfiltered query afterwards answers exactly as before. -/
theorem invalid_source_rejected_without_store_mutation (store : List DbLocData)
    (src : String) (lat lng : ℚ)
    (outcome : Except String (Int × NaiveDateTime)) (scan : Except String Unit)
    (f t : Option NaiveDateTime)
    (h : sanitise_string src = false) :
    post_location store ⟨src, lat, lng⟩ outcome =
        { response := { status := 400, body := .text "Invalid source" },
          store := store, log := [.requestPost ⟨src, lat, lng⟩] }
    ∧ get_all_locations store ⟨some src, f, t⟩ scan =
        { response := { status := 400, body := .text "Invalid source" },
          store := store, log := [.requestGet ⟨some src, f, t⟩] }
    ∧ (get_all_locations (post_location store ⟨src, lat, lng⟩ outcome).store
          ⟨none, none, none⟩ (.ok ())).response
        = (get_all_locations store ⟨none, none, none⟩ (.ok ())).response := by
  have h1 : post_location store ⟨src, lat, lng⟩ outcome =
      { response := { status := 400, body := .text "Invalid source" },
        store := store, log := [.requestPost ⟨src, lat, lng⟩] } := by
    simp [post_location, h]
  refine ⟨h1, ?_, by rw [h1]⟩
  simp [get_all_locations, Option.any, h]

/-- Witness for C4: the spec's own example `source = "bad!source"`. -/
theorem invalid_source_rejected_without_store_mutation_witness :
    post_location [] ⟨"bad!source", 1, 2⟩ (.ok (7, ⟨2024, 1, 2, 3, 4, 5⟩)) =
        { response := { status := 400, body := .text "Invalid source" },
          store := [], log := [.requestPost ⟨"bad!source", 1, 2⟩] }
    ∧ get_all_locations [] ⟨some "bad!source", none, none⟩ (.ok ()) =
        { response := { status := 400, body := .text "Invalid source" },
          store := [], log := [.requestGet ⟨some "bad!source", none, none⟩] }
    ∧ (get_all_locations
          (post_location [] ⟨"bad!source", 1, 2⟩ (.ok (7, ⟨2024, 1, 2, 3, 4, 5⟩))).store
          ⟨none, none, none⟩ (.ok ())).response
        = (get_all_locations [] ⟨none, none, none⟩ (.ok ())).response :=
  invalid_source_rejected_without_store_mutation [] "bad!source" 1 2
    (.ok (7, ⟨2024, 1, 2, 3, 4, 5⟩)) (.ok ()) none none (by decide)

/-- C5: on a valid input, `post_location` issues the single insert, the store
materializes the row with its assigned `id` and `created_at` together with the
input's fields, and on store success the handler succeeds with that row
appended to the store. -/
theorem post_location_insert_returns_materialized_row (store : List DbLocData)
    (data : PostLocData) (newId : Int) (now : NaiveDateTime)
    (h : sanitise_string data.source = true) :
    post_location store data (.ok (newId, now)) =
      { response := { status := 200, body := .text "Record added" },
        store := store ++ [(storeInsert store data newId now).1],
        log := [.requestPost data, .recordAdded (storeInsert store data newId now).1] }
    ∧ (storeInsert store data newId now).1.id = newId
    ∧ (storeInsert store data newId now).1.created_at = now
    ∧ (storeInsert store data newId now).1.source = data.source
    ∧ (storeInsert store data newId now).1.latitude = data.latitude
    ∧ (storeInsert store data newId now).1.longitude = data.longitude := by
  simp [post_location, storeInsert, h]

/-- Witness for C5: a valid insert into the empty store. -/
theorem post_location_insert_returns_materialized_row_witness :
    post_location [] ⟨"gps", 1, 2⟩ (.ok (1, ⟨2024, 1, 2, 3, 4, 5⟩)) =
      { response := { status := 200, body := .text "Record added" },
        store := [] ++ [(storeInsert [] ⟨"gps", 1, 2⟩ 1 ⟨2024, 1, 2, 3, 4, 5⟩).1],
        log := [.requestPost ⟨"gps", 1, 2⟩,
                .recordAdded (storeInsert [] ⟨"gps", 1, 2⟩ 1 ⟨2024, 1, 2, 3, 4, 5⟩).1] }
    ∧ (storeInsert [] ⟨"gps", 1, 2⟩ 1 ⟨2024, 1, 2, 3, 4, 5⟩).1.id = 1
    ∧ (storeInsert [] ⟨"gps", 1, 2⟩ 1 ⟨2024, 1, 2, 3, 4, 5⟩).1.created_at = ⟨2024, 1, 2, 3, 4, 5⟩
    ∧ (storeInsert [] ⟨"gps", 1, 2⟩ 1 ⟨2024, 1, 2, 3, 4, 5⟩).1.source =
        (⟨"gps", 1, 2⟩ : PostLocData).source
    ∧ (storeInsert [] ⟨"gps", 1, 2⟩ 1 ⟨2024, 1, 2, 3, 4, 5⟩).1.latitude =
        (⟨"gps", 1, 2⟩ : PostLocData).latitude
    ∧ (storeInsert [] ⟨"gps", 1, 2⟩ 1 ⟨2024, 1, 2, 3, 4, 5⟩).1.longitude =
        (⟨"gps", 1, 2⟩ : PostLocData).longitude :=
  post_location_insert_returns_materialized_row [] ⟨"gps", 1, 2⟩ 1
    ⟨2024, 1, 2, 3, 4, 5⟩ (by decide)

/-- C6: a store failure makes both handlers answer 500 with their fixed
generic message; the underlying cause appears in the log only, and the
response does not depend on the cause at all. -/
theorem storage_failure_maps_to_generic_server_error (store : List DbLocData)
    (data : PostLocData) (q : GetLocQuery) (cause : String)
    (hp : sanitise_string data.source = true)
    (hq : ∀ s, q.source = some s → sanitise_string s = true) :
    post_location store data (.error cause) =
        { response := { status := 500, body := .text "No record added" },
          store := store, log := [.requestPost data, .cannotAdd cause] }
    ∧ get_all_locations store q (.error cause) =
        { response := { status := 500, body := .text "No records fetched" },
          store := store, log := [.requestGet q, .cannotFetch cause] }
    ∧ (∀ c1 c2 : String, (post_location store data (.error c1)).response =
          (post_location store data (.error c2)).response)
    ∧ (∀ c1 c2 : String, (get_all_locations store q (.error c1)).response =
          (get_all_locations store q (.error c2)).response) := by
  have hany := sourceOk_any q hq
  refine ⟨by simp [post_location, hp], by simp [get_all_locations, hany], ?_, ?_⟩
  · intro c1 c2
    simp [post_location, hp]
  · intro c1 c2
    simp [get_all_locations, hany]

/-- Witness for C6: a concrete store failure cause on both handlers. -/
theorem storage_failure_maps_to_generic_server_error_witness :
    post_location [] ⟨"gps", 1, 2⟩ (.error "disk full") =
        { response := { status := 500, body := .text "No record added" },
          store := [], log := [.requestPost ⟨"gps", 1, 2⟩, .cannotAdd "disk full"] }
    ∧ get_all_locations [] ⟨none, none, none⟩ (.error "disk full") =
        { response := { status := 500, body := .text "No records fetched" },
          store := [], log := [.requestGet ⟨none, none, none⟩, .cannotFetch "disk full"] }
    ∧ (∀ c1 c2 : String, (post_location [] ⟨"gps", 1, 2⟩ (.error c1)).response =
          (post_location [] ⟨"gps", 1, 2⟩ (.error c2)).response)
    ∧ (∀ c1 c2 : String,
          (get_all_locations [] ⟨none, none, none⟩ (.error c1)).response =
          (get_all_locations [] ⟨none, none, none⟩ (.error c2)).response) :=
  storage_failure_maps_to_generic_server_error [] ⟨"gps", 1, 2⟩ ⟨none, none, none⟩
    "disk full" (by decide) (fun _ h => nomatch h)

/-- C7: whenever the scan succeeds, `get_all_locations` answers 200 with the
JSON array of matching rows; in particular zero matches is a 200 with the
empty array, never an error. -/
theorem empty_result_is_success (store : List DbLocData) (q : GetLocQuery)
    (hq : ∀ s, q.source = some s → sanitise_string s = true) :
    (get_all_locations store q (.ok ())).response.status = 200
    ∧ (get_all_locations store q (.ok ())).response.body
        = .json (store.filter (matchesFilter q))
    ∧ (store.filter (matchesFilter q) = [] →
        (get_all_locations store q (.ok ())).response
          = { status := 200, body := .json [] }) := by
  have hany := sourceOk_any q hq
  refine ⟨by simp [get_all_locations, hany], by simp [get_all_locations, hany], ?_⟩
  intro hnil
  simp [get_all_locations, hany, hnil]

/-- Witness for C7: the empty store matches nothing and still answers 200. -/
theorem empty_result_is_success_witness :
    (get_all_locations [] ⟨none, none, none⟩ (.ok ())).response.status = 200
    ∧ (get_all_locations [] ⟨none, none, none⟩ (.ok ())).response.body
        = .json (List.filter (matchesFilter ⟨none, none, none⟩) [])
    ∧ (List.filter (matchesFilter ⟨none, none, none⟩) [] = [] →
        (get_all_locations [] ⟨none, none, none⟩ (.ok ())).response
          = { status := 200, body := .json [] }) :=
  empty_result_is_success [] ⟨none, none, none⟩ (fun _ h => nomatch h)

/-- C8: the textual encoding of a stored `created_at` parses back to the same
timestamp, and querying with `from = to` equal to that timestamp returns the
record. -/
theorem created_at_roundtrip (store : List DbLocData) (r : DbLocData)
    (t : NaiveDateTime) (hv : t.Valid) (hr : r ∈ store) (hc : r.created_at = t) :
    parseTimestamp (encodeTimestamp t) = some t
    ∧ ∃ rows, (get_all_locations store ⟨none, some t, some t⟩ (.ok ())).response
        = { status := 200, body := .json rows } ∧ r ∈ rows := by
  refine ⟨parse_encodeTimestamp t hv,
    store.filter (matchesFilter ⟨none, some t, some t⟩), rfl, ?_⟩
  refine List.mem_filter.mpr ⟨hr, ?_⟩
  simp [matchesFilter, hc, NaiveDateTime.le]

/-- Witness for C8: a singleton store queried back at its own timestamp. -/
theorem created_at_roundtrip_witness :
    parseTimestamp (encodeTimestamp ⟨2024, 1, 2, 3, 4, 5⟩) = some ⟨2024, 1, 2, 3, 4, 5⟩
    ∧ ∃ rows,
      (get_all_locations
          [{ id := 1, source := "gps", latitude := 1, longitude := 2,
             created_at := ⟨2024, 1, 2, 3, 4, 5⟩ }]
          ⟨none, some ⟨2024, 1, 2, 3, 4, 5⟩, some ⟨2024, 1, 2, 3, 4, 5⟩⟩
          (.ok ())).response
        = { status := 200, body := .json rows }
      ∧ ({ id := 1, source := "gps", latitude := 1, longitude := 2,
           created_at := ⟨2024, 1, 2, 3, 4, 5⟩ } : DbLocData) ∈ rows :=
  created_at_roundtrip _ _ _ (by constructor <;> norm_num)
    (List.mem_singleton.mpr rfl) rfl

/-- C9: `post_location` checks no coordinate ranges: with a valid source, any
rational latitude/longitude whatsoever reaches the insert unchanged and the
call succeeds. -/
theorem post_location_accepts_any_coordinates (store : List DbLocData)
    (src : String) (lat lng : ℚ) (newId : Int) (now : NaiveDateTime)
    (h : sanitise_string src = true) :
    (post_location store ⟨src, lat, lng⟩ (.ok (newId, now))).response.status = 200
    ∧ (post_location store ⟨src, lat, lng⟩ (.ok (newId, now))).store =
        store ++ [{ id := newId, source := src, latitude := lat,
                    longitude := lng, created_at := now }] := by
  simp [post_location, storeInsert, h]

/-- Witness for C9: coordinates far outside `[-90, 90]` and `[-180, 180]`. -/
theorem post_location_accepts_any_coordinates_witness :
    (post_location [] ⟨"gps", 1000, -950⟩
        (.ok (1, ⟨2024, 1, 2, 3, 4, 5⟩))).response.status = 200
    ∧ (post_location [] ⟨"gps", 1000, -950⟩ (.ok (1, ⟨2024, 1, 2, 3, 4, 5⟩))).store =
        [] ++ [{ id := 1, source := "gps", latitude := 1000,
                 longitude := -950, created_at := ⟨2024, 1, 2, 3, 4, 5⟩ }] :=
  post_location_accepts_any_coordinates [] "gps" 1000 (-950) 1
    ⟨2024, 1, 2, 3, 4, 5⟩ (by decide)

/-- C10: with both bounds present and `from > to`, the query is not rejected:
the scan succeeds and answers 200 with zero records, since no `created_at`
satisfies both inclusive bounds. -/
theorem inverted_range_yields_empty_success (store : List DbLocData)
    (q : GetLocQuery) (t1 t2 : NaiveDateTime)
    (hq : ∀ s, q.source = some s → sanitise_string s = true)
    (hf : q.from_ = some t1) (ht : q.to_ = some t2)
    (hlt : NaiveDateTime.le t1 t2 = false) :
    get_all_locations store q (.ok ()) =
      { response := { status := 200, body := .json [] }, store := store,
        log := [.requestGet q, .recordsFetched 0 q] } := by
  have hany := sourceOk_any q hq
  have hempty : store.filter (matchesFilter q) = [] := by
    rw [List.filter_eq_nil_iff]
    intro r hr hm
    rw [matchesFilter, hf, ht, Bool.and_eq_true, Bool.and_eq_true] at hm
    have := NaiveDateTime.le_trans t1 r.created_at t2 hm.1.2 hm.2
    rw [this] at hlt
    exact absurd hlt (by simp)
  rw [get_all_locations, hany]
  simp [hempty]

/-- Witness for C10: a populated store with `from` one day after `to`. -/
theorem inverted_range_yields_empty_success_witness :
    get_all_locations
        [{ id := 1, source := "gps", latitude := 1, longitude := 2,
           created_at := ⟨2024, 1, 2, 12, 0, 0⟩ }]
        ⟨none, some ⟨2024, 1, 3, 0, 0, 0⟩, some ⟨2024, 1, 2, 0, 0, 0⟩⟩ (.ok ()) =
      { response := { status := 200, body := .json [] },
        store := [{ id := 1, source := "gps", latitude := 1, longitude := 2,
                    created_at := ⟨2024, 1, 2, 12, 0, 0⟩ }],
        log := [.requestGet ⟨none, some ⟨2024, 1, 3, 0, 0, 0⟩, some ⟨2024, 1, 2, 0, 0, 0⟩⟩,
                .recordsFetched 0
                  ⟨none, some ⟨2024, 1, 3, 0, 0, 0⟩, some ⟨2024, 1, 2, 0, 0, 0⟩⟩] } :=
  inverted_range_yields_empty_success _ _ ⟨2024, 1, 3, 0, 0, 0⟩ ⟨2024, 1, 2, 0, 0, 0⟩
    (fun _ h => nomatch h) rfl rfl (by decide)

end NtbLocation
